import Mathlib

/-!
Shallow embedding of gdb/symfile-debug.c: the runtime-toggleable logging
shim that wraps each populated slot of an objfile's `sym_fns` operation
table with a debug proxy function.

Modelling conventions:
* Function pointers are `FnPtr`: either a backend implementation,
  identified by a numeric id (`FnPtr.real i`), or one of the file's
  debug proxy functions (`FnPtr.debug p`).  A null function pointer is
  `none` at the slot.
* Backend semantics are an oracle `World`: `impl i args` is the outcome
  of calling backend implementation `i` (normal return with a value, or
  a thrown gdb error).  Argument and result values are opaque `Val`s.
* The per-objfile registry `symfile_debug_objfile_data_key` associates a
  `debug_sym_fns_data` with an objfile by identity; since it is a pure
  identity-keyed store, its entry for one objfile is modelled as the
  `attach` field of that objfile's state.
* `gdb_assert` failure is an abort and is modelled as an explicit error
  (`Err.assertFailed` for the setup functions, `ProxyRes.abort` for the
  proxies); reading through a null pointer is `Err.nullDeref` /
  `ProxyRes.nullDeref`.
* Each proxy records its observable behaviour as an ordered event trace:
  `Event.log` is one `fprintf_filtered` line (tagged with the operation
  it names, carrying the rendered values), `Event.callFn` is the
  invocation of the captured backend function.  Trace order is the
  control-flow order of the C body.
-/

namespace SymfileDebug

/-- Opaque argument/result values (addresses, flag words, probe vectors). -/
abbrev Val := Nat

/-- The debug proxy functions defined in symfile-debug.c, one per
operation slot plus the probe-query proxy. -/
inductive ProxyId
  | p_new_init
  | p_init
  | p_read
  | p_finish
  | p_offsets
  | p_segments
  | p_read_linetable
  | p_relocate
  | p_get_probes
  deriving DecidableEq, Repr

/-- A non-null C function pointer stored in an operation-table slot:
either a backend implementation (identified by a numeric id) or one of
the debug proxies from this file. -/
inductive FnPtr
  | real (id : Nat)
  | debug (p : ProxyId)
  deriving DecidableEq, Repr

/-- struct sym_probe_fns: the nested probe-query table, holding the single
sym_get_probes function pointer. -/
structure sym_probe_fns where
  sym_get_probes : Option FnPtr
  deriving DecidableEq, Repr

/-- struct sym_fns: the per-objfile operation table.  Every slot is an
optional function pointer; sym_probe_fns is an optional pointer to the
nested probe table. -/
structure sym_fns where
  sym_new_init : Option FnPtr
  sym_init : Option FnPtr
  sym_read : Option FnPtr
  sym_finish : Option FnPtr
  sym_offsets : Option FnPtr
  sym_segments : Option FnPtr
  sym_read_linetable : Option FnPtr
  sym_relocate : Option FnPtr
  sym_probe_fns : Option sym_probe_fns
  deriving DecidableEq, Repr

/-- struct debug_sym_fns_data: the record attached to an instrumented
objfile, holding the saved real table and the malloc'd shadow table. -/
structure debug_sym_fns_data where
  real_sf : sym_fns
  debug_sf : sym_fns
  deriving DecidableEq, Repr

/-- enum language, reduced to the distinction the embedded code observes:
language_unknown (the default) versus any concrete language. -/
inductive language
  | language_unknown
  | language_c
  deriving DecidableEq, Repr

/-- struct quick_symbol_functions (the capability object `qf`), modelled
by the answers it gives to the queries forwarded in symfile-debug.c. -/
structure quick_symbol_functions where
  can_lazily_read_symbols : Bool
  has_symbols : Bool
  find_last_source_symtab : Option Val
  lookup_symbol : Nat → Val → Nat → Option Val
  find_compunit_symtab_by_address : Val → Option Val
  lookup_global_symbol_language : Val → Nat → language × Bool

/-- The OBJF_PSYMTABS_READ bit of objfile::flags (the exact bit position
is not load-bearing; only zero/non-zero of the masked value is used). -/
def OBJF_PSYMTABS_READ : Nat := 16

/-- struct objfile, restricted to the fields symfile-debug.c reads or
writes: its identity (`name`, what objfile_debug_name renders), its flag
word, the active operation table pointer `sf`, the capability object
`qf`, and this objfile's entry in the symfile_debug_objfile_data_key
registry (`attach`; `none` models an absent entry). -/
structure objfile where
  name : Val
  flags : Nat
  sf : Option sym_fns
  qf : Option quick_symbol_functions
  attach : Option debug_sym_fns_data

/-- Abort-class failures of the setup functions: a gdb_assert that fired,
or a read through a null pointer. -/
inductive Err
  | assertFailed
  | nullDeref
  deriving DecidableEq, Repr

/-- symfile_debug_installed: non-zero iff the objfile has a non-null sf
and a registry entry. -/
def symfile_debug_installed (o : objfile) : Bool :=
  o.sf.isSome && o.attach.isSome

/-- The debugging version of struct sym_probe_fns: the single slot holds
the debug_sym_get_probes proxy. -/
def debug_sym_probe_fns : sym_probe_fns :=
  { sym_get_probes := some (FnPtr.debug ProxyId.p_get_probes) }

/-- The shadow table built by install_symfile_debug_logging: debug_sf
starts zero-initialized (all slots null) and COPY_SF_PTR populates a
slot with the matching proxy exactly when the real table's slot is
non-null; likewise the probe-table pointer is set to
&debug_sym_probe_fns exactly when the real one is non-null. -/
def mk_debug_sf (real_sf : sym_fns) : sym_fns :=
  { sym_new_init :=
      if real_sf.sym_new_init.isSome
      then some (FnPtr.debug ProxyId.p_new_init) else none
    sym_init :=
      if real_sf.sym_init.isSome
      then some (FnPtr.debug ProxyId.p_init) else none
    sym_read :=
      if real_sf.sym_read.isSome
      then some (FnPtr.debug ProxyId.p_read) else none
    sym_finish :=
      if real_sf.sym_finish.isSome
      then some (FnPtr.debug ProxyId.p_finish) else none
    sym_offsets :=
      if real_sf.sym_offsets.isSome
      then some (FnPtr.debug ProxyId.p_offsets) else none
    sym_segments :=
      if real_sf.sym_segments.isSome
      then some (FnPtr.debug ProxyId.p_segments) else none
    sym_read_linetable :=
      if real_sf.sym_read_linetable.isSome
      then some (FnPtr.debug ProxyId.p_read_linetable) else none
    sym_relocate :=
      if real_sf.sym_relocate.isSome
      then some (FnPtr.debug ProxyId.p_relocate) else none
    sym_probe_fns :=
      if real_sf.sym_probe_fns.isSome
      then some debug_sym_probe_fns else none }

/-- install_symfile_debug_logging: gdb_assert (!symfile_debug_installed),
capture real_sf = objfile->sf, build the shadow table (preserving null
slots), register the debug data in the store and point sf at the shadow
table.  When objfile->sf is null the assert passes (installed is false)
and COPY_SF_PTR then reads through the null real_sf. -/
def install_symfile_debug_logging (o : objfile) : Except Err objfile :=
  if symfile_debug_installed o then Except.error Err.assertFailed
  else
    match o.sf with
    | none => Except.error Err.nullDeref
    | some real_sf =>
        let debug_data : debug_sym_fns_data :=
          { real_sf := real_sf, debug_sf := mk_debug_sf real_sf }
        Except.ok
          { o with attach := some debug_data
                   sf := some debug_data.debug_sf }

/-- uninstall_symfile_debug_logging: gdb_assert (symfile_debug_installed),
restore objfile->sf to the saved real table and clear the store entry. -/
def uninstall_symfile_debug_logging (o : objfile) : Except Err objfile :=
  if symfile_debug_installed o then
    match o.attach with
    | none => Except.error Err.nullDeref
    | some debug_data =>
        Except.ok { o with sf := some debug_data.real_sf, attach := none }
  else Except.error Err.assertFailed

/-- objfile_set_sym_fns: the single sanctioned mutator of objfile->sf.
If instrumentation is installed, gdb_assert (debug_symfile) and
uninstall; then store the new table; then reinstall if the global toggle
is on.  The global `debug_symfile` flag is passed explicitly. -/
def objfile_set_sym_fns (debug_symfile : Bool) (o : objfile)
    (sf : Option sym_fns) : Except Err objfile :=
  match (if symfile_debug_installed o then
           (if debug_symfile then uninstall_symfile_debug_logging o
            else Except.error Err.assertFailed)
         else Except.ok o) with
  | Except.error e => Except.error e
  | Except.ok o1 =>
      let o2 := { o1 with sf := sf }
      if debug_symfile then install_symfile_debug_logging o2
      else Except.ok o2

/-- The per-objfile body of the set_debug_symfile command handler, run
for each objfile after the global flag has been updated to
`debug_symfile`: install if the flag is on and logging is not yet
installed, uninstall if the flag is off and logging is installed. -/
def set_debug_symfile_one (debug_symfile : Bool) (o : objfile) :
    Except Err objfile :=
  if debug_symfile then
    (if !symfile_debug_installed o then install_symfile_debug_logging o
     else Except.ok o)
  else
    (if symfile_debug_installed o then uninstall_symfile_debug_logging o
     else Except.ok o)

/-- set_debug_symfile: walk every currently loaded objfile and apply the
per-objfile body. -/
def set_debug_symfile (debug_symfile : Bool) (objfiles : List objfile) :
    Except Err (List objfile) :=
  objfiles.mapM (set_debug_symfile_one debug_symfile)

/-- Outcome of calling a backend implementation: normal return carrying
a value (void functions return a dummy value), or a thrown gdb error
that propagates through the caller. -/
inductive Outcome
  | ret (v : Val)
  | err
  deriving DecidableEq, Repr

/-- Semantics of the backend implementations: `impl i args` is what
backend function `i` does when applied to `args`. -/
structure World where
  impl : Nat → List Val → Outcome

/-- Observable step of a proxy body, in control-flow order: one
fprintf_filtered trace line (tagged with the operation it names and
carrying the rendered values), or the invocation of a captured
function pointer. -/
inductive Event
  | log (tag : ProxyId) (data : List Val)
  | callFn (f : FnPtr) (args : List Val)
  deriving DecidableEq, Repr

/-- Result of running a proxy: its event trace and outcome, or an
abnormal stop (null-pointer read; gdb_assert abort; a call into a debug
proxy stored where a backend pointer belongs, which in C would re-enter
the shim and is outside the modelled fragment). -/
inductive ProxyRes
  | ok (tr : List Event) (out : Outcome)
  | nullDeref
  | stuck
  | abort
  deriving DecidableEq, Repr

/-- The trace of a ProxyRes (empty for abnormal stops). -/
def ProxyRes.trace : ProxyRes → List Event
  | ProxyRes.ok tr _ => tr
  | _ => []

/-- The outcome of a ProxyRes, when it ran to completion. -/
def ProxyRes.outcome : ProxyRes → Option Outcome
  | ProxyRes.ok _ out => some out
  | _ => none

/-- Whether a trace contains at least one fprintf trace line. -/
def hasLog (tr : List Event) : Bool :=
  tr.any fun e =>
    match e with
    | Event.log _ _ => true
    | Event.callFn _ _ => false

/-- Calling through a captured function pointer: a backend pointer is
interpreted by the world; a debug-proxy pointer is outside the modelled
fragment (it would re-enter the shim). -/
def call_fn (w : World) (f : FnPtr) (args : List Val) : Option Outcome :=
  match f with
  | FnPtr.real i => some (w.impl i args)
  | FnPtr.debug _ => none

/-- Shared shape of the six void-slot proxies (debug_sym_new_init, ...):
fetch the registry entry, print the trace line naming the operation and
its arguments, then call the captured real function; a thrown error in
the callee propagates after the line was printed. -/
def void_proxy_body (w : World) (o : objfile) (tag : ProxyId)
    (slot : sym_fns → Option FnPtr) (extra : List Val) : ProxyRes :=
  match o.attach with
  | none => ProxyRes.nullDeref
  | some debug_data =>
      match slot debug_data.real_sf with
      | none => ProxyRes.nullDeref
      | some f =>
          match call_fn w f (o.name :: extra) with
          | none => ProxyRes.stuck
          | some out =>
              ProxyRes.ok
                [Event.log tag (o.name :: extra),
                 Event.callFn f (o.name :: extra)] out

/-- debug_sym_new_init: print "sf->sym_new_init (objfile)" then forward. -/
def debug_sym_new_init (w : World) (o : objfile) : ProxyRes :=
  void_proxy_body w o ProxyId.p_new_init (fun sf => sf.sym_new_init) []

/-- debug_sym_init: print "sf->sym_init (objfile)" then forward. -/
def debug_sym_init (w : World) (o : objfile) : ProxyRes :=
  void_proxy_body w o ProxyId.p_init (fun sf => sf.sym_init) []

/-- debug_sym_read: print "sf->sym_read (objfile, symfile_flags)" then
forward. -/
def debug_sym_read (w : World) (o : objfile) (symfile_flags : Val) :
    ProxyRes :=
  void_proxy_body w o ProxyId.p_read (fun sf => sf.sym_read) [symfile_flags]

/-- debug_sym_finish: print "sf->sym_finish (objfile)" then forward. -/
def debug_sym_finish (w : World) (o : objfile) : ProxyRes :=
  void_proxy_body w o ProxyId.p_finish (fun sf => sf.sym_finish) []

/-- debug_sym_offsets: print "sf->sym_offsets (objfile, info)" then
forward. -/
def debug_sym_offsets (w : World) (o : objfile) (info : Val) : ProxyRes :=
  void_proxy_body w o ProxyId.p_offsets (fun sf => sf.sym_offsets) [info]

/-- debug_sym_segments: gdb_assert_not_reached — the slot takes no
objfile argument, so the registry cannot be consulted; any call aborts
unconditionally before doing anything else. -/
def debug_sym_segments (_abfd : Val) : ProxyRes :=
  ProxyRes.abort

/-- debug_sym_read_linetable: print "sf->sym_read_linetable (objfile)"
then forward. -/
def debug_sym_read_linetable (w : World) (o : objfile) : ProxyRes :=
  void_proxy_body w o ProxyId.p_read_linetable
    (fun sf => sf.sym_read_linetable) []

/-- debug_sym_relocate: call the captured real sym_relocate FIRST, then
print the single trace line carrying the arguments and the returned
value, then return that value unchanged.  A thrown error in the callee
propagates before any line is printed. -/
def debug_sym_relocate (w : World) (o : objfile) (sectp buf : Val) :
    ProxyRes :=
  match o.attach with
  | none => ProxyRes.nullDeref
  | some debug_data =>
      match debug_data.real_sf.sym_relocate with
      | none => ProxyRes.nullDeref
      | some f =>
          match call_fn w f [o.name, sectp, buf] with
          | none => ProxyRes.stuck
          | some (Outcome.ret v) =>
              ProxyRes.ok
                [Event.callFn f [o.name, sectp, buf],
                 Event.log ProxyId.p_relocate [o.name, sectp, buf, v]]
                (Outcome.ret v)
          | some Outcome.err =>
              ProxyRes.ok [Event.callFn f [o.name, sectp, buf]] Outcome.err

/-- debug_sym_get_probes: chase real_sf->sym_probe_fns->sym_get_probes,
call it FIRST, then print the single trace line with the result, then
return the result (a reference into the backend's probe vector)
unchanged.  A thrown error in the callee propagates before any line is
printed. -/
def debug_sym_get_probes (w : World) (o : objfile) : ProxyRes :=
  match o.attach with
  | none => ProxyRes.nullDeref
  | some debug_data =>
      match debug_data.real_sf.sym_probe_fns with
      | none => ProxyRes.nullDeref
      | some probe_fns =>
          match probe_fns.sym_get_probes with
          | none => ProxyRes.nullDeref
          | some f =>
              match call_fn w f [o.name] with
              | none => ProxyRes.stuck
              | some (Outcome.ret v) =>
                  ProxyRes.ok
                    [Event.callFn f [o.name],
                     Event.log ProxyId.p_get_probes [o.name, v]]
                    (Outcome.ret v)
              | some Outcome.err =>
                  ProxyRes.ok [Event.callFn f [o.name]] Outcome.err

/-- objfile::has_partial_symbols: true when psymtabs are unread and qf
can lazily read symbols, else qf->has_symbols, else false with a null
qf; never calls through a null qf. -/
def objfile.has_partial_symbols (o : objfile) : Bool :=
  let lazily :=
    match o.qf with
    | some q => q.can_lazily_read_symbols
    | none => false
  if (o.flags &&& OBJF_PSYMTABS_READ) = 0 && lazily then true
  else
    match o.qf with
    | some q => q.has_symbols
    | none => false

/-- objfile::find_last_source_symtab: retval starts null and qf is only
consulted when non-null. -/
def objfile.find_last_source_symtab (o : objfile) : Option Val :=
  match o.qf with
  | some q => q.find_last_source_symtab
  | none => none

/-- objfile::lookup_symbol: retval starts null and qf is only consulted
when non-null. -/
def objfile.lookup_symbol (o : objfile) (kind : Nat) (nm : Val)
    (domain : Nat) : Option Val :=
  match o.qf with
  | some q => q.lookup_symbol kind nm domain
  | none => none

/-- objfile::find_compunit_symtab_by_address: result starts null and qf
is only consulted when non-null. -/
def objfile.find_compunit_symtab_by_address (o : objfile) (address : Val) :
    Option Val :=
  match o.qf with
  | some q => q.find_compunit_symtab_by_address address
  | none => none

/-- objfile::lookup_global_symbol_language: result starts
language_unknown; with a null qf, *symbol_found_p is set to false and
the default is returned.  The pair is (result, *symbol_found_p). -/
def objfile.lookup_global_symbol_language (o : objfile) (nm : Val)
    (domain : Nat) : language × Bool :=
  match o.qf with
  | some q => q.lookup_global_symbol_language nm domain
  | none => (language.language_unknown, false)

/-- The canonical slot list of struct sym_fns: the eight function-pointer
slots plus the nested probe-table pointer. -/
inductive Slot
  | sl_new_init
  | sl_init
  | sl_read
  | sl_finish
  | sl_offsets
  | sl_segments
  | sl_read_linetable
  | sl_relocate
  | sl_probes
  deriving DecidableEq, Repr

/-- Content of a populated sym_fns slot: a function pointer, or (for the
sym_probe_fns slot) a pointer to a probe table. -/
inductive SlotVal
  | fn (f : FnPtr)
  | probes (p : sym_probe_fns)
  deriving DecidableEq, Repr

/-- Read one slot of a sym_fns table by its name in the canonical list. -/
def slotGet (t : sym_fns) : Slot → Option SlotVal
  | Slot.sl_new_init => t.sym_new_init.map SlotVal.fn
  | Slot.sl_init => t.sym_init.map SlotVal.fn
  | Slot.sl_read => t.sym_read.map SlotVal.fn
  | Slot.sl_finish => t.sym_finish.map SlotVal.fn
  | Slot.sl_offsets => t.sym_offsets.map SlotVal.fn
  | Slot.sl_segments => t.sym_segments.map SlotVal.fn
  | Slot.sl_read_linetable => t.sym_read_linetable.map SlotVal.fn
  | Slot.sl_relocate => t.sym_relocate.map SlotVal.fn
  | Slot.sl_probes => t.sym_probe_fns.map SlotVal.probes

/-- The proxy that install_symfile_debug_logging puts in each slot of
the shadow table when the corresponding real slot is populated. -/
def proxyFor : Slot → SlotVal
  | Slot.sl_new_init => SlotVal.fn (FnPtr.debug ProxyId.p_new_init)
  | Slot.sl_init => SlotVal.fn (FnPtr.debug ProxyId.p_init)
  | Slot.sl_read => SlotVal.fn (FnPtr.debug ProxyId.p_read)
  | Slot.sl_finish => SlotVal.fn (FnPtr.debug ProxyId.p_finish)
  | Slot.sl_offsets => SlotVal.fn (FnPtr.debug ProxyId.p_offsets)
  | Slot.sl_segments => SlotVal.fn (FnPtr.debug ProxyId.p_segments)
  | Slot.sl_read_linetable =>
      SlotVal.fn (FnPtr.debug ProxyId.p_read_linetable)
  | Slot.sl_relocate => SlotVal.fn (FnPtr.debug ProxyId.p_relocate)
  | Slot.sl_probes => SlotVal.probes debug_sym_probe_fns

/-- A sample backend table with a mix of populated and absent slots, as
a DWARF-style backend would supply. -/
def sample_sf : sym_fns :=
  { sym_new_init := some (FnPtr.real 1)
    sym_init := none
    sym_read := some (FnPtr.real 2)
    sym_finish := none
    sym_offsets := some (FnPtr.real 3)
    sym_segments := none
    sym_read_linetable := none
    sym_relocate := some (FnPtr.real 4)
    sym_probe_fns := some { sym_get_probes := some (FnPtr.real 5) } }

/-- A sample backend table with every slot populated. -/
def full_sf : sym_fns :=
  { sym_new_init := some (FnPtr.real 1)
    sym_init := some (FnPtr.real 2)
    sym_read := some (FnPtr.real 3)
    sym_finish := some (FnPtr.real 4)
    sym_offsets := some (FnPtr.real 5)
    sym_segments := some (FnPtr.real 6)
    sym_read_linetable := some (FnPtr.real 7)
    sym_relocate := some (FnPtr.real 8)
    sym_probe_fns := some { sym_get_probes := some (FnPtr.real 9) } }

/-- A plain, uninstrumented objfile whose active table is sample_sf. -/
def o_plain : objfile :=
  { name := 5, flags := 0, sf := some sample_sf, qf := none, attach := none }

/-- An objfile with a null sf and no registry entry. -/
def o_null : objfile :=
  { name := 0, flags := 0, sf := none, qf := none, attach := none }

/-- An objfile with logging installed around sample_sf. -/
def o_installed : objfile :=
  { name := 5
    flags := 0
    sf := some (mk_debug_sf sample_sf)
    qf := none
    attach := some { real_sf := sample_sf, debug_sf := mk_debug_sf sample_sf } }

/-- An objfile with logging installed around full_sf. -/
def o_full : objfile :=
  { name := 7
    flags := 0
    sf := some (mk_debug_sf full_sf)
    qf := none
    attach := some { real_sf := full_sf, debug_sf := mk_debug_sf full_sf } }

/-- A world in which every backend call throws a gdb error. -/
def w_err : World := { impl := fun _ _ => Outcome.err }

/-- A world in which every backend call returns normally with value 0. -/
def w_ret : World := { impl := fun _ _ => Outcome.ret 0 }

/-- C1: for a module whose active table is the original T and which has
no attachment-store entry, Install succeeds, points the active table at
the shadow table, and for every slot in the canonical list (the eight
function slots plus the nested probe-table pointer) the shadow slot is
populated with the corresponding proxy exactly when the slot was
populated in T; absent slots remain absent. -/
theorem install_populates_iff (o : objfile) (T : sym_fns)
    (hsf : o.sf = some T) (hat : o.attach = none) :
    install_symfile_debug_logging o =
      Except.ok
        { o with attach := some { real_sf := T, debug_sf := mk_debug_sf T }
                 sf := some (mk_debug_sf T) } ∧
    ∀ s : Slot, slotGet (mk_debug_sf T) s =
      Option.map (fun _ => proxyFor s) (slotGet T s) := by
  constructor
  · simp [install_symfile_debug_logging, symfile_debug_installed, hat, hsf]
  · intro s
    cases s
    · cases h : T.sym_new_init <;> simp [slotGet, proxyFor, mk_debug_sf, h]
    · cases h : T.sym_init <;> simp [slotGet, proxyFor, mk_debug_sf, h]
    · cases h : T.sym_read <;> simp [slotGet, proxyFor, mk_debug_sf, h]
    · cases h : T.sym_finish <;> simp [slotGet, proxyFor, mk_debug_sf, h]
    · cases h : T.sym_offsets <;> simp [slotGet, proxyFor, mk_debug_sf, h]
    · cases h : T.sym_segments <;> simp [slotGet, proxyFor, mk_debug_sf, h]
    · cases h : T.sym_read_linetable <;>
        simp [slotGet, proxyFor, mk_debug_sf, h]
    · cases h : T.sym_relocate <;> simp [slotGet, proxyFor, mk_debug_sf, h]
    · cases h : T.sym_probe_fns <;> simp [slotGet, proxyFor, mk_debug_sf, h]

/-- Witness for install_populates_iff at the concrete module o_plain
wrapping sample_sf. -/
theorem install_populates_iff_witness :
    install_symfile_debug_logging o_plain =
      Except.ok
        { o_plain with
            attach := some { real_sf := sample_sf
                             debug_sf := mk_debug_sf sample_sf }
            sf := some (mk_debug_sf sample_sf) } ∧
    ∀ s : Slot, slotGet (mk_debug_sf sample_sf) s =
      Option.map (fun _ => proxyFor s) (slotGet sample_sf s) :=
  install_populates_iff o_plain sample_sf rfl rfl

/-- C4: for a module whose active table is an original table T and which
has no attachment-store entry, Install followed immediately by
Uninstall yields back exactly the pre-install module state: the active
table is the identical original reference and the attachment-store
entry is gone. -/
theorem install_uninstall_roundtrip (o : objfile) (T : sym_fns)
    (hsf : o.sf = some T) (hat : o.attach = none) :
    ∃ o1, install_symfile_debug_logging o = Except.ok o1 ∧
      uninstall_symfile_debug_logging o1 = Except.ok o := by
  obtain ⟨n, fl, sf0, qf0, at0⟩ := o
  simp only [] at hsf hat
  subst hsf hat
  refine ⟨{ name := n, flags := fl, sf := some (mk_debug_sf T), qf := qf0,
            attach := some { real_sf := T, debug_sf := mk_debug_sf T } },
          ?_, ?_⟩
  · simp [install_symfile_debug_logging, symfile_debug_installed]
  · simp [uninstall_symfile_debug_logging, symfile_debug_installed]

/-- Witness for install_uninstall_roundtrip at the concrete module
o_plain wrapping sample_sf. -/
theorem install_uninstall_roundtrip_witness :
    ∃ o1, install_symfile_debug_logging o_plain = Except.ok o1 ∧
      uninstall_symfile_debug_logging o1 = Except.ok o_plain :=
  install_uninstall_roundtrip o_plain sample_sf rfl rfl

/-- C5 counterexample: on a module whose active table is null (so the
claimed precondition "active table non-null AND no store entry" does
not hold), Install does NOT fail through the gdb_assert — the assert
sees symfile_debug_installed false and passes — and instead reads
through the null real_sf pointer. -/
theorem install_null_sf_cx :
    o_null.sf.isSome = false ∧
    install_symfile_debug_logging o_null ≠ Except.error Err.assertFailed ∧
    install_symfile_debug_logging o_null = Except.error Err.nullDeref := by
  refine ⟨rfl, ?_, rfl⟩
  simp [install_symfile_debug_logging, symfile_debug_installed, o_null]

/-- C5 amended: Install's assertion fires exactly on double-install
(active table non-null AND a store entry exists, i.e.
symfile_debug_installed); with a null active table the assertion passes
and Install instead dereferences the null table.  Uninstall's assertion
fires whenever logging is not currently installed. -/
theorem install_uninstall_assertions (o : objfile) :
    (symfile_debug_installed o = true →
      install_symfile_debug_logging o = Except.error Err.assertFailed) ∧
    (o.sf = none →
      install_symfile_debug_logging o = Except.error Err.nullDeref) ∧
    (symfile_debug_installed o = false →
      uninstall_symfile_debug_logging o = Except.error Err.assertFailed) := by
  refine ⟨?_, ?_, ?_⟩
  · intro h
    simp [install_symfile_debug_logging, h]
  · intro h
    simp [install_symfile_debug_logging, symfile_debug_installed, h]
  · intro h
    simp [uninstall_symfile_debug_logging, h]

/-- Witness for install_uninstall_assertions: the double-install case at
o_installed, and the null-table and uninstall-when-absent cases at
o_null. -/
theorem install_uninstall_assertions_witness :
    install_symfile_debug_logging o_installed =
      Except.error Err.assertFailed ∧
    install_symfile_debug_logging o_null = Except.error Err.nullDeref ∧
    uninstall_symfile_debug_logging o_null =
      Except.error Err.assertFailed :=
  ⟨(install_uninstall_assertions o_installed).1 rfl,
   (install_uninstall_assertions o_null).2.1 rfl,
   (install_uninstall_assertions o_null).2.2 rfl⟩

/-- C7: any call through the segments proxy aborts via
gdb_assert_not_reached; it never returns normally and is never a
silent no-op. -/
theorem segments_proxy_aborts (abfd : Val) :
    debug_sym_segments abfd = ProxyRes.abort := rfl

/-- C2 counterexample: on an instrumented module whose backend
sym_relocate throws, the relocate proxy's trace contains no log line at
all — in particular none before the forwarded call — because
debug_sym_relocate calls the real function first and only prints its
single line after a normal return. -/
theorem relocate_no_log_before_cx :
    debug_sym_relocate w_err o_installed 1 2 =
      ProxyRes.ok [Event.callFn (FnPtr.real 4) [5, 1, 2]] Outcome.err ∧
    hasLog (debug_sym_relocate w_err o_installed 1 2).trace = false := by
  exact ⟨rfl, rfl⟩

/-- C2 amended: the six void-slot proxies print their trace line
(naming the operation and its module/argument values) before calling
the captured real implementation, so that line exists even if the call
throws; the two value-returning proxies, sym_relocate and the nested
probe-query proxy, instead call the real implementation first and print
one line carrying the arguments and the result only after a normal
return (so no line is emitted when the forwarded call does not return
normally). -/
theorem proxy_trace_shape (w : World) (o : objfile)
    (dd : debug_sym_fns_data) (hat : o.attach = some dd) :
    (∀ i, dd.real_sf.sym_new_init = some (FnPtr.real i) →
       debug_sym_new_init w o =
         ProxyRes.ok
           [Event.log ProxyId.p_new_init [o.name],
            Event.callFn (FnPtr.real i) [o.name]]
           (w.impl i [o.name])) ∧
    (∀ i, dd.real_sf.sym_init = some (FnPtr.real i) →
       debug_sym_init w o =
         ProxyRes.ok
           [Event.log ProxyId.p_init [o.name],
            Event.callFn (FnPtr.real i) [o.name]]
           (w.impl i [o.name])) ∧
    (∀ i symfile_flags, dd.real_sf.sym_read = some (FnPtr.real i) →
       debug_sym_read w o symfile_flags =
         ProxyRes.ok
           [Event.log ProxyId.p_read [o.name, symfile_flags],
            Event.callFn (FnPtr.real i) [o.name, symfile_flags]]
           (w.impl i [o.name, symfile_flags])) ∧
    (∀ i, dd.real_sf.sym_finish = some (FnPtr.real i) →
       debug_sym_finish w o =
         ProxyRes.ok
           [Event.log ProxyId.p_finish [o.name],
            Event.callFn (FnPtr.real i) [o.name]]
           (w.impl i [o.name])) ∧
    (∀ i info, dd.real_sf.sym_offsets = some (FnPtr.real i) →
       debug_sym_offsets w o info =
         ProxyRes.ok
           [Event.log ProxyId.p_offsets [o.name, info],
            Event.callFn (FnPtr.real i) [o.name, info]]
           (w.impl i [o.name, info])) ∧
    (∀ i, dd.real_sf.sym_read_linetable = some (FnPtr.real i) →
       debug_sym_read_linetable w o =
         ProxyRes.ok
           [Event.log ProxyId.p_read_linetable [o.name],
            Event.callFn (FnPtr.real i) [o.name]]
           (w.impl i [o.name])) ∧
    (∀ i sectp buf, dd.real_sf.sym_relocate = some (FnPtr.real i) →
       debug_sym_relocate w o sectp buf =
         (match w.impl i [o.name, sectp, buf] with
          | Outcome.ret v =>
              ProxyRes.ok
                [Event.callFn (FnPtr.real i) [o.name, sectp, buf],
                 Event.log ProxyId.p_relocate [o.name, sectp, buf, v]]
                (Outcome.ret v)
          | Outcome.err =>
              ProxyRes.ok
                [Event.callFn (FnPtr.real i) [o.name, sectp, buf]]
                Outcome.err)) ∧
    (∀ i pf, dd.real_sf.sym_probe_fns = some pf →
       pf.sym_get_probes = some (FnPtr.real i) →
       debug_sym_get_probes w o =
         (match w.impl i [o.name] with
          | Outcome.ret v =>
              ProxyRes.ok
                [Event.callFn (FnPtr.real i) [o.name],
                 Event.log ProxyId.p_get_probes [o.name, v]]
                (Outcome.ret v)
          | Outcome.err =>
              ProxyRes.ok [Event.callFn (FnPtr.real i) [o.name]]
                Outcome.err)) := by
  refine ⟨?_, ?_, ?_, ?_, ?_, ?_, ?_, ?_⟩
  · intro i h
    simp [debug_sym_new_init, void_proxy_body, hat, h, call_fn]
  · intro i h
    simp [debug_sym_init, void_proxy_body, hat, h, call_fn]
  · intro i symfile_flags h
    simp [debug_sym_read, void_proxy_body, hat, h, call_fn]
  · intro i h
    simp [debug_sym_finish, void_proxy_body, hat, h, call_fn]
  · intro i info h
    simp [debug_sym_offsets, void_proxy_body, hat, h, call_fn]
  · intro i h
    simp [debug_sym_read_linetable, void_proxy_body, hat, h, call_fn]
  · intro i sectp buf h
    cases hw : w.impl i [o.name, sectp, buf] <;>
      simp [debug_sym_relocate, hat, h, call_fn, hw]
  · intro i pf hpf h
    cases hw : w.impl i [o.name] <;>
      simp [debug_sym_get_probes, hat, hpf, h, call_fn, hw]

/-- Witness for proxy_trace_shape: every proxy evaluated on the fully
populated module o_full in the all-calls-return world w_ret. -/
theorem proxy_trace_shape_witness :
    debug_sym_new_init w_ret o_full =
      ProxyRes.ok
        [Event.log ProxyId.p_new_init [7], Event.callFn (FnPtr.real 1) [7]]
        (Outcome.ret 0) ∧
    debug_sym_init w_ret o_full =
      ProxyRes.ok
        [Event.log ProxyId.p_init [7], Event.callFn (FnPtr.real 2) [7]]
        (Outcome.ret 0) ∧
    debug_sym_read w_ret o_full 3 =
      ProxyRes.ok
        [Event.log ProxyId.p_read [7, 3],
         Event.callFn (FnPtr.real 3) [7, 3]]
        (Outcome.ret 0) ∧
    debug_sym_finish w_ret o_full =
      ProxyRes.ok
        [Event.log ProxyId.p_finish [7], Event.callFn (FnPtr.real 4) [7]]
        (Outcome.ret 0) ∧
    debug_sym_offsets w_ret o_full 6 =
      ProxyRes.ok
        [Event.log ProxyId.p_offsets [7, 6],
         Event.callFn (FnPtr.real 5) [7, 6]]
        (Outcome.ret 0) ∧
    debug_sym_read_linetable w_ret o_full =
      ProxyRes.ok
        [Event.log ProxyId.p_read_linetable [7],
         Event.callFn (FnPtr.real 7) [7]]
        (Outcome.ret 0) ∧
    debug_sym_relocate w_ret o_full 1 2 =
      ProxyRes.ok
        [Event.callFn (FnPtr.real 8) [7, 1, 2],
         Event.log ProxyId.p_relocate [7, 1, 2, 0]]
        (Outcome.ret 0) ∧
    debug_sym_get_probes w_ret o_full =
      ProxyRes.ok
        [Event.callFn (FnPtr.real 9) [7],
         Event.log ProxyId.p_get_probes [7, 0]]
        (Outcome.ret 0) := by
  have h := proxy_trace_shape w_ret o_full
    { real_sf := full_sf, debug_sf := mk_debug_sf full_sf } rfl
  exact ⟨h.1 1 rfl, h.2.1 2 rfl, h.2.2.1 3 3 rfl, h.2.2.2.1 4 rfl,
         h.2.2.2.2.1 5 6 rfl, h.2.2.2.2.2.1 7 rfl,
         h.2.2.2.2.2.2.1 8 1 2 rfl,
         h.2.2.2.2.2.2.2 9 { sym_get_probes := some (FnPtr.real 9) } rfl rfl⟩

/-- C6 counterexample: full_sf has its segments slot populated, and
after wrapping, the shadow table's segments slot is the debug proxy,
whose invocation aborts (no outcome), while the original backend
implementation returns normally — so invoking the populated segments
slot through the shadow table is not result-preserving. -/
theorem segments_not_transparent_cx :
    full_sf.sym_segments = some (FnPtr.real 6) ∧
    (mk_debug_sf full_sf).sym_segments =
      some (FnPtr.debug ProxyId.p_segments) ∧
    (debug_sym_segments 3).outcome = none ∧
    w_ret.impl 6 [3] = Outcome.ret 0 := by
  exact ⟨rfl, rfl, rfl, rfl⟩

/-- C6 amended: for every populated slot other than sym_segments (whose
proxy deliberately aborts, being unreachable in practice), the proxy's
outcome is identical to the outcome of invoking the original backend
implementation directly on the same arguments — normal results are
returned unchanged and thrown errors propagate unchanged. -/
theorem proxy_forwarding_transparent (w : World) (o : objfile)
    (dd : debug_sym_fns_data) (hat : o.attach = some dd) :
    (∀ i, dd.real_sf.sym_new_init = some (FnPtr.real i) →
       (debug_sym_new_init w o).outcome = some (w.impl i [o.name])) ∧
    (∀ i, dd.real_sf.sym_init = some (FnPtr.real i) →
       (debug_sym_init w o).outcome = some (w.impl i [o.name])) ∧
    (∀ i symfile_flags, dd.real_sf.sym_read = some (FnPtr.real i) →
       (debug_sym_read w o symfile_flags).outcome =
         some (w.impl i [o.name, symfile_flags])) ∧
    (∀ i, dd.real_sf.sym_finish = some (FnPtr.real i) →
       (debug_sym_finish w o).outcome = some (w.impl i [o.name])) ∧
    (∀ i info, dd.real_sf.sym_offsets = some (FnPtr.real i) →
       (debug_sym_offsets w o info).outcome =
         some (w.impl i [o.name, info])) ∧
    (∀ i, dd.real_sf.sym_read_linetable = some (FnPtr.real i) →
       (debug_sym_read_linetable w o).outcome =
         some (w.impl i [o.name])) ∧
    (∀ i sectp buf, dd.real_sf.sym_relocate = some (FnPtr.real i) →
       (debug_sym_relocate w o sectp buf).outcome =
         some (w.impl i [o.name, sectp, buf])) ∧
    (∀ i pf, dd.real_sf.sym_probe_fns = some pf →
       pf.sym_get_probes = some (FnPtr.real i) →
       (debug_sym_get_probes w o).outcome = some (w.impl i [o.name])) := by
  refine ⟨?_, ?_, ?_, ?_, ?_, ?_, ?_, ?_⟩
  · intro i h
    simp [debug_sym_new_init, void_proxy_body, hat, h, call_fn,
          ProxyRes.outcome]
  · intro i h
    simp [debug_sym_init, void_proxy_body, hat, h, call_fn,
          ProxyRes.outcome]
  · intro i symfile_flags h
    simp [debug_sym_read, void_proxy_body, hat, h, call_fn,
          ProxyRes.outcome]
  · intro i h
    simp [debug_sym_finish, void_proxy_body, hat, h, call_fn,
          ProxyRes.outcome]
  · intro i info h
    simp [debug_sym_offsets, void_proxy_body, hat, h, call_fn,
          ProxyRes.outcome]
  · intro i h
    simp [debug_sym_read_linetable, void_proxy_body, hat, h, call_fn,
          ProxyRes.outcome]
  · intro i sectp buf h
    cases hw : w.impl i [o.name, sectp, buf] <;>
      simp [debug_sym_relocate, hat, h, call_fn, hw, ProxyRes.outcome]
  · intro i pf hpf h
    cases hw : w.impl i [o.name] <;>
      simp [debug_sym_get_probes, hat, hpf, h, call_fn, hw,
            ProxyRes.outcome]

/-- Witness for proxy_forwarding_transparent: every non-segments proxy
on o_full in the world w_ret has the same outcome as the direct backend
call, namely a normal return of 0. -/
theorem proxy_forwarding_transparent_witness :
    (debug_sym_new_init w_ret o_full).outcome = some (Outcome.ret 0) ∧
    (debug_sym_init w_ret o_full).outcome = some (Outcome.ret 0) ∧
    (debug_sym_read w_ret o_full 3).outcome = some (Outcome.ret 0) ∧
    (debug_sym_finish w_ret o_full).outcome = some (Outcome.ret 0) ∧
    (debug_sym_offsets w_ret o_full 6).outcome = some (Outcome.ret 0) ∧
    (debug_sym_read_linetable w_ret o_full).outcome =
      some (Outcome.ret 0) ∧
    (debug_sym_relocate w_ret o_full 1 2).outcome =
      some (Outcome.ret 0) ∧
    (debug_sym_get_probes w_ret o_full).outcome = some (Outcome.ret 0) := by
  have h := proxy_forwarding_transparent w_ret o_full
    { real_sf := full_sf, debug_sf := mk_debug_sf full_sf } rfl
  exact ⟨h.1 1 rfl, h.2.1 2 rfl, h.2.2.1 3 3 rfl, h.2.2.2.1 4 rfl,
         h.2.2.2.2.1 5 6 rfl, h.2.2.2.2.2.1 7 rfl,
         h.2.2.2.2.2.2.1 8 1 2 rfl,
         h.2.2.2.2.2.2.2 9 { sym_get_probes := some (FnPtr.real 9) } rfl rfl⟩

/-- C3: under the store well-formedness invariant (an entry implies a
non-null active table) and the checked toggle invariant (installed
implies toggle on), the mutator guard succeeds on any replacement table
T2; with the toggle on the module ends up instrumented with its shadow
state wrapping T2 itself, and with the toggle off the module's active
table is exactly T2, unwrapped, with no store entry. -/
theorem set_sym_fns_guard (debug_symfile : Bool) (o : objfile)
    (T2 : sym_fns)
    (hwf : o.attach.isSome = true → o.sf.isSome = true)
    (hinv : symfile_debug_installed o = true → debug_symfile = true) :
    ∃ o1, objfile_set_sym_fns debug_symfile o (some T2) = Except.ok o1 ∧
      (debug_symfile = true →
        o1.sf = some (mk_debug_sf T2) ∧
        o1.attach = some { real_sf := T2, debug_sf := mk_debug_sf T2 } ∧
        symfile_debug_installed o1 = true) ∧
      (debug_symfile = false → o1.sf = some T2 ∧ o1.attach = none) := by
  obtain ⟨n, fl, sf0, qf0, at0⟩ := o
  cases at0 with
  | none =>
      cases debug_symfile with
      | false =>
          refine ⟨{ name := n, flags := fl, sf := some T2, qf := qf0,
                    attach := none }, ?_, ?_, ?_⟩
          · simp [objfile_set_sym_fns, symfile_debug_installed]
          · simp
          · simp
      | true =>
          refine ⟨{ name := n, flags := fl, sf := some (mk_debug_sf T2),
                    qf := qf0,
                    attach := some { real_sf := T2
                                     debug_sf := mk_debug_sf T2 } },
                  ?_, ?_, ?_⟩
          · simp [objfile_set_sym_fns, symfile_debug_installed,
                  install_symfile_debug_logging]
          · simp [symfile_debug_installed]
          · simp
  | some dd =>
      cases sf0 with
      | none => exact absurd (hwf rfl) (by simp)
      | some T1 =>
          have hdbg : debug_symfile = true := hinv rfl
          subst hdbg
          refine ⟨{ name := n, flags := fl, sf := some (mk_debug_sf T2),
                    qf := qf0,
                    attach := some { real_sf := T2
                                     debug_sf := mk_debug_sf T2 } },
                  ?_, ?_, ?_⟩
          · simp [objfile_set_sym_fns, symfile_debug_installed,
                  uninstall_symfile_debug_logging,
                  install_symfile_debug_logging]
          · simp [symfile_debug_installed]
          · simp

/-- Witness for set_sym_fns_guard: replacing the table of the
instrumented module o_installed with full_sf while the toggle is on,
and replacing the table of the plain module o_plain with full_sf while
the toggle is off. -/
theorem set_sym_fns_guard_witness :
    (∃ o1, objfile_set_sym_fns true o_installed (some full_sf) =
        Except.ok o1 ∧
      (true = true →
        o1.sf = some (mk_debug_sf full_sf) ∧
        o1.attach = some { real_sf := full_sf
                           debug_sf := mk_debug_sf full_sf } ∧
        symfile_debug_installed o1 = true) ∧
      (true = false → o1.sf = some full_sf ∧ o1.attach = none)) ∧
    (∃ o1, objfile_set_sym_fns false o_plain (some full_sf) =
        Except.ok o1 ∧
      (false = true →
        o1.sf = some (mk_debug_sf full_sf) ∧
        o1.attach = some { real_sf := full_sf
                           debug_sf := mk_debug_sf full_sf } ∧
        symfile_debug_installed o1 = true) ∧
      (false = false → o1.sf = some full_sf ∧ o1.attach = none)) :=
  ⟨set_sym_fns_guard true o_installed full_sf (fun _ => rfl)
      (fun _ => rfl),
   set_sym_fns_guard false o_plain full_sf (fun _ => rfl)
      (fun h => by simp [symfile_debug_installed, o_plain] at h)⟩

/-- C8: the per-module body of the toggle handler is idempotent — when
the new flag value already matches the module's instrumentation state
(on and installed, or off and not installed), the module is returned
unchanged: same table, same store entry, no double install. -/
theorem toggle_idempotent (debug_symfile : Bool) (o : objfile)
    (h : debug_symfile = symfile_debug_installed o) :
    set_debug_symfile_one debug_symfile o = Except.ok o := by
  cases hi : symfile_debug_installed o <;>
    rw [hi] at h <;> subst h <;> simp [set_debug_symfile_one, hi]

/-- Witness for toggle_idempotent: enabling on the already-instrumented
o_installed, and disabling on the never-instrumented o_plain. -/
theorem toggle_idempotent_witness :
    set_debug_symfile_one true o_installed = Except.ok o_installed ∧
    set_debug_symfile_one false o_plain = Except.ok o_plain :=
  ⟨toggle_idempotent true o_installed rfl,
   toggle_idempotent false o_plain rfl⟩

/-- C9: every modelled query-forwarding method on the module is total
with a null qf — it consults nothing and returns the neutral default:
false for has_partial_symbols, null for the symtab lookups, and
(language_unknown, *symbol_found_p = false) for
lookup_global_symbol_language. -/
theorem qf_null_defaults (o : objfile) (hqf : o.qf = none) :
    o.has_partial_symbols = false ∧
    o.find_last_source_symtab = none ∧
    (∀ kind nm domain, o.lookup_symbol kind nm domain = none) ∧
    (∀ address, o.find_compunit_symtab_by_address address = none) ∧
    (∀ nm domain, o.lookup_global_symbol_language nm domain =
      (language.language_unknown, false)) := by
  refine ⟨?_, ?_, ?_, ?_, ?_⟩ <;>
    simp [objfile.has_partial_symbols, objfile.find_last_source_symtab,
          objfile.lookup_symbol, objfile.find_compunit_symtab_by_address,
          objfile.lookup_global_symbol_language, hqf]

/-- Witness for qf_null_defaults at the concrete module o_plain, whose
qf is null. -/
theorem qf_null_defaults_witness :
    o_plain.has_partial_symbols = false ∧
    o_plain.find_last_source_symtab = none ∧
    (∀ kind nm domain, o_plain.lookup_symbol kind nm domain = none) ∧
    (∀ address, o_plain.find_compunit_symtab_by_address address = none) ∧
    (∀ nm domain, o_plain.lookup_global_symbol_language nm domain =
      (language.language_unknown, false)) :=
  qf_null_defaults o_plain rfl

/-- C10: whenever the mutator guard is entered on a module with
instrumentation installed while the global toggle is off, the guard's
gdb_assert (debug_symfile) fires — 'instrumented implies toggle
enabled' is checked at every table replacement. -/
theorem guard_asserts_toggle (debug_symfile : Bool) (o : objfile)
    (sf : Option sym_fns)
    (hinst : symfile_debug_installed o = true)
    (hdbg : debug_symfile = false) :
    objfile_set_sym_fns debug_symfile o sf =
      Except.error Err.assertFailed := by
  subst hdbg
  simp [objfile_set_sym_fns, hinst]

/-- Witness for guard_asserts_toggle: entering the guard on the
instrumented o_installed with the toggle off aborts. -/
theorem guard_asserts_toggle_witness :
    objfile_set_sym_fns false o_installed (some full_sf) =
      Except.error Err.assertFailed :=
  guard_asserts_toggle false o_installed (some full_sf) rfl rfl

end SymfileDebug
